import Mathlib

/-!
Verification of the CSV/WKT-to-GeoJSON conversion-and-merge pipeline in
`backend/merge_population_data.py` (function `merge_and_convert`).

Shallow embedding notes:
* A pandas cell value is modelled by `Value`: a string, an integer, or NaN
  (pandas' missing-value marker; Python `None` behaves identically under
  `pd.isna` / `pd.notna` and is folded into the same constructor).
* A geometry-CSV row (`df_geom`) is `GeomRow`: the ZSJ code column
  (`kod_zsj` or similar), the WKT geometry column, and the two optional
  geometry-side name columns `nazov_zsj` / `nazov_okre` that the fallback at
  lines 168-171 reads (`none` = column absent from the CSV).  Other columns
  of the CSV are never read by the pipeline and are omitted.  The model
  assumes the geometry code column is not itself named `zsj_kod` (so the
  pandas merge performs no `_x`/`_y` suffixing).
* A population-CSV row (`df_pop`, after the `pop_rename` at lines 78-92) is
  `PopRow` with the eight renamed columns the pipeline reads; the four
  renamed columns it never reads (`kraj_kod`, `kraj_nazov`, `okres_kod`,
  `obec_kod`) are omitted.
* `str()`, `.strip()`, `s[-7:]`, `[:100]` and `int()` are modelled by
  `pyStr`, `pyStrip`, `pyTailSlice`, `pyTruncate` and `pyIntOf`.
* The external libraries shapely (`wkt.loads`, `mapping`) and pyproj
  (`transform`) are not part of the repository; their composite per-row
  action "parse WKT, reproject, map to GeoJSON geometry" is a parameter
  `convertGeom : Value → Except String JValue` of the loop and pipeline
  (failure = the exception caught at line 184).
* `json.dumps(..., allow_nan=False)` is `jsonDumps false`: it raises
  (returns `.error`) when the value tree contains a NaN, and otherwise
  renders the tree; the rendering abstracts indentation and string escaping
  but preserves the value structure.  In `runPipeline` the written output
  file is exactly the `.ok` payload: an `.error` result models a `sys.exit`
  or uncaught exception with no output file written (at line 238 `dumps`
  runs before the output file is opened at line 240).
-/

namespace MergePop

/-- A pandas cell value: string, integer, or NaN (missing). -/
inductive Value where
  | vstr (s : String)
  | vint (n : Int)
  | vnan
deriving DecidableEq

/-- Python `str(v)` on a pandas cell: `astype(str)` turns NaN into "nan". -/
def pyStr : Value → String
  | .vstr s => s
  | .vint n => toString n
  | .vnan => "nan"

/-- pandas `pd.isna` on a cell value. -/
def Value.isNa : Value → Bool
  | .vnan => true
  | _ => false

/-- Python's ASCII whitespace characters (`str.strip` also strips a few
Unicode spaces, which do not occur in these data). -/
def isSpaceChar (c : Char) : Bool :=
  c == ' ' || c == '\t' || c == '\n' || c == '\r' || c == '\x0b' || c == '\x0c'

/-- Python `s.strip()`: remove leading and trailing whitespace. -/
def pyStrip (s : String) : String :=
  String.mk (((s.data.dropWhile isSpaceChar).reverse.dropWhile isSpaceChar).reverse)

/-- Python slice `s[-n:]`: the last `n` characters, the whole string when it
is shorter than `n`. -/
def pyTailSlice (n : Nat) (s : String) : String :=
  String.mk (s.data.drop (s.data.length - n))

/-- Python slice `s[:n]`: the first `n` characters. -/
def pyTruncate (n : Nat) (s : String) : String :=
  String.mk (s.data.take n)

/-- Python `int(v)` on a cell value: identity on integers, parse for
strings, an exception for NaN. -/
def pyIntOf : Value → Except String Int
  | .vint n => .ok n
  | .vstr s =>
      match (pyStrip s).toInt? with
      | some n => .ok n
      | none => .error "invalid literal for int() with base 10"
  | .vnan => .error "cannot convert float NaN to integer"

/-- A row of the geometry CSV (`df_geom`), restricted to the columns the
pipeline reads. -/
structure GeomRow where
  code : Value
  geom : Value
  nazov_zsj : Option Value
  nazov_okre : Option Value
deriving DecidableEq

/-- A row of the population CSV (`df_pop`) after the `pop_rename`,
restricted to the columns the pipeline reads. -/
structure PopRow where
  zsj_kod : Value
  zsj_nazov : Value
  okres_nazov : Value
  obec_nazov : Value
  pop_trvaly_pobyt : Value
  pop_inde_sr : Value
  pop_zahranicie : Value
  pop_total : Value
deriving DecidableEq

/-- Line 96: `df_pop['zsj_kod'] = df_pop['zsj_kod'].astype(str).str.strip()`.
The in-place column assignment, as a per-record update. -/
def normalizePop (pr : PopRow) : PopRow :=
  { pr with zsj_kod := .vstr (pyStrip (pyStr pr.zsj_kod)) }

/-- A geometry row after lines 95 and 99: the code column cast to string and
stripped in place, and the derived column `zsj_kod_short` added. -/
structure GeomRowN where
  raw : String
  short : String
  geom : Value
  nazov_zsj : Option Value
  nazov_okre : Option Value
deriving DecidableEq

/-- Lines 95 and 99: cast the code column to string, strip it, and derive
`zsj_kod_short` as its last seven characters (`.str[-7:]`). -/
def normGeom (r : GeomRow) : GeomRowN :=
  let raw := pyStrip (pyStr r.code)
  { raw := raw
    short := pyTailSlice 7 raw
    geom := r.geom
    nazov_zsj := r.nazov_zsj
    nazov_okre := r.nazov_okre }

/-- The normalized population join key (the stripped string in the
`zsj_kod` column). -/
def popKey (pr : PopRow) : String := pyStr pr.zsj_kod

/-- One row of `df_merged`: a geometry row together with the matched
population row, or `none` when the left join found no match (all population
columns NaN). -/
structure MergedRow where
  g : GeomRowN
  p : Option PopRow
deriving DecidableEq

/-- Read a population-side column of a merged row; NaN when the left join
left the population side unmatched. -/
def MergedRow.pop (m : MergedRow) (f : PopRow → Value) : Value :=
  match m.p with
  | some pr => f pr
  | none => .vnan

/-- Lines 108-113: `df_geom.merge(df_pop, left_on='zsj_kod_short',
right_on='zsj_kod', how='left')`.  Each left row pairs with every matching
right row in order; a left row with no match is kept once with NaN
population columns. -/
def leftJoin (gs : List GeomRowN) (ps : List PopRow) : List MergedRow :=
  gs.flatMap fun g =>
    let ms := ps.filter fun pr => popKey pr == g.short
    if ms.isEmpty then [⟨g, none⟩] else ms.map fun pr => ⟨g, some pr⟩

/-- The merged table produced from the two raw input tables (normalization
then left join). -/
def mergedOf (gs : List GeomRow) (ps : List PopRow) : List MergedRow :=
  leftJoin (gs.map normGeom) (ps.map normalizePop)

/-- Line 115: `matched = df_merged['pop_total'].notna().sum()`. -/
def countMatched (ms : List MergedRow) : Nat :=
  (ms.filter fun m => !(m.pop PopRow.pop_total).isNa).length

/-- Matched-row count of the whole pipeline on the raw inputs. -/
def matchedOf (gs : List GeomRow) (ps : List PopRow) : Nat :=
  countMatched (mergedOf gs ps)

/-- A Python value destined for `json.dumps`: null, string, integer, the
float NaN, array, or object (insertion-ordered dict). -/
inductive JValue where
  | jnull
  | jstr (s : String)
  | jint (n : Int)
  | jnan
  | jarr (xs : List JValue)
  | jobj (fields : List (String × JValue))

/-- Inject a pandas cell value into a JSON value (a raw assignment such as
`properties['zsj_nazov'] = row['nazov_zsj']`, with no `str()` cast: NaN
stays the float NaN). -/
def JValue.ofValue : Value → JValue
  | .vstr s => .jstr s
  | .vint n => .jint n
  | .vnan => .jnan

mutual

/-- Does the value tree contain the float NaN anywhere?  This is the
condition under which `json.dumps(..., allow_nan=False)` raises. -/
def JValue.hasNan : JValue → Bool
  | .jnull => false
  | .jstr _ => false
  | .jint _ => false
  | .jnan => true
  | .jarr xs => hasNanList xs
  | .jobj fs => hasNanFields fs

def hasNanList : List JValue → Bool
  | [] => false
  | x :: xs => x.hasNan || hasNanList xs

def hasNanFields : List (String × JValue) → Bool
  | [] => false
  | kv :: fs => kv.2.hasNan || hasNanFields fs

end

mutual

/-- Serialize a JSON value to text.  Abstracts the `indent=2` layout and
string escaping of `json.dumps`, preserving the value structure and field
order. -/
def JValue.render : JValue → String
  | .jnull => "null"
  | .jstr s => "\"" ++ s ++ "\""
  | .jint n => toString n
  | .jnan => "NaN"
  | .jarr xs => "[" ++ renderList xs ++ "]"
  | .jobj fs => "\x7b" ++ renderFields fs ++ "\x7d"

def renderList : List JValue → String
  | [] => ""
  | [x] => x.render
  | x :: y :: xs => x.render ++ ", " ++ renderList (y :: xs)

def renderFields : List (String × JValue) → String
  | [] => ""
  | [kv] => "\"" ++ kv.1 ++ "\": " ++ kv.2.render
  | kv :: kv2 :: fs => "\"" ++ kv.1 ++ "\": " ++ kv.2.render ++ ", " ++ renderFields (kv2 :: fs)

end

/-- Line 238: `json.dumps(geojson, ensure_ascii=False, indent=2,
allow_nan=False)`.  With `allow_nan=False` Python raises `ValueError` as
soon as a NaN float is reached, producing no string. -/
def jsonDumps (allow_nan : Bool) (v : JValue) : Except String String :=
  if !allow_nan && v.hasNan then
    .error "Out of range float values are not JSON compliant"
  else
    .ok v.render

/-- Property value for the four name/code fields (lines 157-160):
`str(row.get(k)) if pd.notna(row.get(k)) else None`. -/
def strProp (v : Value) : JValue :=
  if v.isNa then .jnull else .jstr (pyStr v)

/-- Property value for the four population-count fields (lines 161-164):
`int(row[k]) if pd.notna(row.get(k)) else 0`; `int()` can raise, which the
per-row handler catches. -/
def numProp (v : Value) : Except String JValue :=
  if v.isNa then .ok (.jint 0)
  else do
    let n ← pyIntOf v
    return .jint n

/-- The `properties` dict of one feature with the four population-count
values already converted, including the geometry-side name fallback of
lines 168-171 (`if pd.isna(properties['zsj_nazov']) and 'nazov_zsj' in
row: ...`; `pd.isna` is true there exactly when the stored value is
`None`). -/
def buildPropsCore (m : MergedRow) (p1 p2 p3 p4 : JValue) :
    List (String × JValue) :=
  [("zsj_kod", strProp (m.pop PopRow.zsj_kod)),
   ("zsj_nazov",
     match strProp (m.pop PopRow.zsj_nazov), m.g.nazov_zsj with
     | .jnull, some v => JValue.ofValue v
     | x, _ => x),
   ("okres_nazov",
     match strProp (m.pop PopRow.okres_nazov), m.g.nazov_okre with
     | .jnull, some v => JValue.ofValue v
     | x, _ => x),
   ("obec_nazov", strProp (m.pop PopRow.obec_nazov)),
   ("pop_trvaly_pobyt", p1),
   ("pop_inde_sr", p2),
   ("pop_zahranicie", p3),
   ("pop_total", p4)]

/-- Lines 156-171: build the `properties` dict of one feature; the first
failing `int()` conversion (in source order) raises, and the exception is
caught by the per-row handler. -/
def buildProps (m : MergedRow) : Except String (List (String × JValue)) :=
  match numProp (m.pop PopRow.pop_trvaly_pobyt),
        numProp (m.pop PopRow.pop_inde_sr),
        numProp (m.pop PopRow.pop_zahranicie),
        numProp (m.pop PopRow.pop_total) with
  | .ok p1, .ok p2, .ok p3, .ok p4 => .ok (buildPropsCore m p1 p2 p3 p4)
  | .error e, _, _, _ => .error e
  | .ok _, .error e, _, _ => .error e
  | .ok _, .ok _, .error e, _ => .error e
  | .ok _, .ok _, .ok _, .error e => .error e

/-- Lines 174-178: assemble one GeoJSON feature. -/
def mkFeature (gj : JValue) (ps : List (String × JValue)) : JValue :=
  .jobj [("type", .jstr "Feature"), ("geometry", gj), ("properties", .jobj ps)]

/-- Outcome of the body of the per-row loop (lines 142-187) on one row. -/
inductive RowOutcome where
  | noGeom
  | feature (f : JValue)
  | rowError (msg : String)

/-- The body of the per-row loop on one merged row: skip rows with a
missing/empty geometry cell (lines 146-148), otherwise parse + reproject
the WKT (via the external `convertGeom`) and build the feature; any
exception on the way is the caught row error of line 184. -/
def processRow (convertGeom : Value → Except String JValue) (m : MergedRow) :
    RowOutcome :=
  let gw := m.g.geom
  if gw.isNa || gw == .vstr "" then .noGeom
  else
    match convertGeom gw with
    | .error e => .rowError e
    | .ok gj =>
        match buildProps m with
        | .error e => .rowError e
        | .ok ps => .feature (mkFeature gj ps)

/-- Mutable state of the feature-building loop: the `features` list and the
`errors` / `no_geom` counters (lines 138-140), plus the truncated messages
actually printed for the first errors (line 187). -/
structure LoopState where
  features : List JValue
  errors : Nat
  no_geom : Nat
  errorLog : List String

/-- The loop state before the first row. -/
def initLoopState : LoopState := ⟨[], 0, 0, []⟩

/-- One iteration of the loop: dispatch on the row outcome, advancing the
matching counter; an error is printed (truncated to 100 characters) only
while `errors <= 3` after the increment, later errors are only counted. -/
def loopStep (convertGeom : Value → Except String JValue)
    (st : LoopState) (m : MergedRow) : LoopState :=
  match processRow convertGeom m with
  | .noGeom => { st with no_geom := st.no_geom + 1 }
  | .feature f => { st with features := st.features ++ [f] }
  | .rowError e =>
      { st with
        errors := st.errors + 1
        errorLog :=
          if st.errors + 1 ≤ 3 then st.errorLog ++ [pyTruncate 100 e]
          else st.errorLog }

/-- The feature-building loop (lines 142-187) started from a given state. -/
def buildLoopFrom (convertGeom : Value → Except String JValue)
    (st : LoopState) (ms : List MergedRow) : LoopState :=
  ms.foldl (loopStep convertGeom) st

/-- The feature-building loop started from the initial state. -/
def buildLoop (convertGeom : Value → Except String JValue)
    (ms : List MergedRow) : LoopState :=
  buildLoopFrom convertGeom initLoopState ms

/-- Lines 220-229: the FeatureCollection document with its fixed CRS tag. -/
def featureCollection (features : List JValue) : JValue :=
  .jobj [("type", .jstr "FeatureCollection"),
         ("crs", .jobj [("type", .jstr "name"),
                        ("properties", .jobj [("name", .jstr "urn:ogc:def:crs:EPSG::4326")])]),
         ("features", .jarr features)]

/-- The GeoJSON document the pipeline would serialize for the given raw
inputs. -/
def docOf (convertGeom : Value → Except String JValue)
    (gs : List GeomRow) (ps : List PopRow) : JValue :=
  featureCollection (buildLoop convertGeom (mergedOf gs ps)).features

/-- How a run terminates without writing output: the zero-match
`sys.exit(1)` at line 126 (carrying the three 5-sample key lists printed at
lines 120-125), or the uncaught `ValueError` from `json.dumps` at line 238
(the process dies before the output file is opened). -/
inductive PipeError where
  | zeroMatch (geomRawSample geomShortSample popSample : List String)
  | nanError (msg : String)
deriving DecidableEq

/-- Recognizer for the zero-match abort. -/
def abortedZeroMatch : Except PipeError String → Bool
  | .error (.zeroMatch _ _ _) => true
  | _ => false

/-- The content of the output GeoJSON file, when one is written. -/
def writtenFile (r : Except PipeError String) : Option String :=
  match r with
  | .ok s => some s
  | .error _ => none

/-- The pipeline of `merge_and_convert` after the two CSVs are loaded:
normalize keys (lines 95-99), left-join (lines 108-113), abort when no row
matched (lines 115-126), run the feature loop (lines 138-187), and
serialize with `allow_nan=False` (line 238).  The `.ok` payload is the text
written to the output file; both `.error` cases terminate the process
before any output file is written. -/
def runPipeline (convertGeom : Value → Except String JValue)
    (gs : List GeomRow) (ps : List PopRow) : Except PipeError String :=
  let ngs := gs.map normGeom
  let nps := ps.map normalizePop
  let merged := leftJoin ngs nps
  if countMatched merged == 0 then
    .error (.zeroMatch ((ngs.map GeomRowN.raw).take 5)
                       ((ngs.map GeomRowN.short).take 5)
                       ((nps.map popKey).take 5))
  else
    let st := buildLoopFrom convertGeom initLoopState merged
    let doc := featureCollection st.features
    match jsonDumps false doc with
    | .error e => .error (.nanError e)
    | .ok s => .ok s

/-! Concrete sample data used by witnesses and counterexamples. -/

/-- A GeoJSON Point value, standing for the output of shapely's `mapping`
on a reprojected geometry. -/
def pointJson : JValue :=
  .jobj [("type", .jstr "Point"), ("coordinates", .jarr [.jint 17, .jint 48])]

/-- A `convertGeom` instance that parses and reprojects every geometry cell
successfully, as shapely/pyproj do on a valid WKT point. -/
def cgPoint : Value → Except String JValue := fun _ => .ok pointJson

/-- A geometry row with the identifier from the source comment at line 98. -/
def gA : GeomRow := ⟨.vstr "SK01012045520", .vstr "POINT (1 2)", none, none⟩

/-- A population row whose key matches `gA`'s derived short key. -/
def pA : PopRow :=
  ⟨.vstr "2045520", .vstr "Name", .vstr "Okres", .vstr "Obec",
   .vint 10, .vint 2, .vint 1, .vint 13⟩

/-- A population row whose key matches no geometry row in the samples. -/
def pB : PopRow :=
  ⟨.vstr "9999999", .vnan, .vnan, .vnan, .vnan, .vnan, .vnan, .vint 5⟩

/-- A conversion failure whose message is longer than 100 characters. -/
def longMsg : String := String.mk (List.replicate 150 'x')

/-- A `convertGeom` instance that fails on every row, as shapely does on an
unparseable WKT string. -/
def cgFail : Value → Except String JValue := fun _ => .error longMsg

/-- A merged row with a present geometry cell that fails conversion. -/
def mErr : MergedRow := ⟨normGeom ⟨.vstr "SK01012045520", .vstr "not wkt", none, none⟩, none⟩

/-- The fixed allow-list of property keys, in source order (lines
156-165). -/
def allowedKeys : List String :=
  ["zsj_kod", "zsj_nazov", "okres_nazov", "obec_nazov",
   "pop_trvaly_pobyt", "pop_inde_sr", "pop_zahranicie", "pop_total"]

/-- Look a key up in a properties list (Python dict access). -/
def plook (ps : List (String × JValue)) (k : String) : Option JValue :=
  (ps.find? fun kv => kv.1 == k).map Prod.snd

/-- The value a name property takes when the population side is null:
the geometry-side fallback column when present, else null. -/
def fallbackName : Option Value → JValue
  | some v => JValue.ofValue v
  | none => .jnull

/-- An unmatched merged row (left join found no population row for `gA`). -/
def mUn : MergedRow := ⟨normGeom gA, none⟩

/-- The properties built for the unmatched row `mUn`: names null, counts
zero. -/
def propsUn : List (String × JValue) :=
  [("zsj_kod", .jnull), ("zsj_nazov", .jnull), ("okres_nazov", .jnull),
   ("obec_nazov", .jnull), ("pop_trvaly_pobyt", .jint 0),
   ("pop_inde_sr", .jint 0), ("pop_zahranicie", .jint 0),
   ("pop_total", .jint 0)]

/-- A geometry row carrying the fallback name column `nazov_zsj`. -/
def gFall : GeomRow :=
  ⟨.vstr "SK01011111111", .vstr "POINT (1 2)", some (.vstr "Alt"), none⟩

/-- A matched population row whose own `zsj_nazov` is NaN. -/
def pNoName : PopRow :=
  ⟨.vstr "1111111", .vnan, .vnan, .vnan, .vnan, .vnan, .vnan, .vint 5⟩

/-- The merged row joining `gFall` with `pNoName`. -/
def mFall : MergedRow := ⟨normGeom gFall, some pNoName⟩

/-- The properties built for `mFall`: `zsj_nazov` comes from the
geometry-side fallback, not null. -/
def propsFall : List (String × JValue) :=
  [("zsj_kod", .jstr "1111111"), ("zsj_nazov", .jstr "Alt"),
   ("okres_nazov", .jnull), ("obec_nazov", .jnull),
   ("pop_trvaly_pobyt", .jint 0), ("pop_inde_sr", .jint 0),
   ("pop_zahranicie", .jint 0), ("pop_total", .jint 5)]

/-- The population table exactly as the join at lines 108-113 consumes it:
the loaded rows after the in-place key normalization of line 96. -/
def popTableAtJoin (ps : List PopRow) : List PopRow := ps.map normalizePop

/-- A population row whose loaded key carries surrounding whitespace. -/
def pWs : PopRow :=
  ⟨.vstr " 123 ", .vnan, .vnan, .vnan, .vnan, .vnan, .vnan, .vint 1⟩

/-- A geometry row whose fallback name column holds NaN; joined with
`pNoName` it puts the float NaN into the feature properties. -/
def gNan : GeomRow := ⟨.vstr "1111111", .vstr "POINT (1 2)", some .vnan, none⟩

/-! Helper lemmas. -/

/-- Dropping all but the last `n` elements is taking the last `n` elements
in reverse order, reversed. -/
lemma drop_length_sub_eq_reverse_take (n : Nat) (l : List Char) :
    l.drop (l.length - n) = (l.reverse.take n).reverse := by
  rw [List.take_reverse, List.reverse_reverse]

/-- Claim C2: the derived join key of a geometry identifier is the last 7
characters of its string form after stripping surrounding whitespace; the
identifier "SK01012045520" yields "2045520"; the population key column is
likewise cast to string and stripped before joining. -/
theorem join_key_derivation :
    (∀ r : GeomRow, (normGeom r).short
       = String.mk (((pyStrip (pyStr r.code)).data.reverse.take 7).reverse)) ∧
    (normGeom ⟨.vstr "SK01012045520", .vnan, none, none⟩).short = "2045520" ∧
    (∀ pr : PopRow, (normalizePop pr).zsj_kod = .vstr (pyStrip (pyStr pr.zsj_kod))) := by
  refine ⟨fun r => ?_, by decide, fun pr => rfl⟩
  show String.mk _ = String.mk _
  rw [drop_length_sub_eq_reverse_take]

/-- Claim C10, as stated, is false: a whitespace-only identifier is
nonempty yet yields an empty join key (its stripped form is empty). -/
theorem short_key_total_cx :
    (normGeom ⟨.vstr " ", .vnan, none, none⟩).short = "" ∧
    Value.vstr " " ≠ Value.vstr "" := by
  exact ⟨by decide, by decide⟩

/-- Claim C10 (amended): key derivation is total and never errors on short
identifiers; when the stripped identifier has fewer than 7 characters the
key is the entire stripped identifier, and the key is empty only if the
stripped identifier is empty. -/
theorem short_key_total (r : GeomRow) :
    ((pyStrip (pyStr r.code)).length < 7 → (normGeom r).short = pyStrip (pyStr r.code)) ∧
    ((normGeom r).short = "" → pyStrip (pyStr r.code) = "") := by
  constructor
  · intro h
    have hl : (pyStrip (pyStr r.code)).data.length < 7 := h
    have hz : (pyStrip (pyStr r.code)).data.length - 7 = 0 := by omega
    show String.mk _ = _
    rw [hz, List.drop_zero]
  · intro h
    have hd : (pyStrip (pyStr r.code)).data.drop
        ((pyStrip (pyStr r.code)).data.length - 7) = [] := congrArg String.data h
    have hlen := congrArg List.length hd
    simp only [List.length_drop, List.length_nil] at hlen
    have hzero : (pyStrip (pyStr r.code)).data.length = 0 := by omega
    apply String.ext
    exact List.length_eq_zero.mp hzero

/-- One loop iteration advances exactly one of the three counted
quantities. -/
lemma loopStep_counts (cg : Value → Except String JValue)
    (st : LoopState) (m : MergedRow) :
    (loopStep cg st m).features.length + (loopStep cg st m).no_geom
        + (loopStep cg st m).errors
      = st.features.length + st.no_geom + st.errors + 1 := by
  unfold loopStep
  cases processRow cg m <;> simp <;> omega

/-- Accounting identity for the loop started from an arbitrary state. -/
lemma buildLoopFrom_accounting (cg : Value → Except String JValue)
    (ms : List MergedRow) (st : LoopState) :
    (buildLoopFrom cg st ms).features.length + (buildLoopFrom cg st ms).no_geom
        + (buildLoopFrom cg st ms).errors
      = st.features.length + st.no_geom + st.errors + ms.length := by
  induction ms generalizing st with
  | nil => simp [buildLoopFrom]
  | cons m ms ih =>
      have hstep : buildLoopFrom cg st (m :: ms)
          = buildLoopFrom cg (loopStep cg st m) ms := rfl
      rw [hstep, ih (loopStep cg st m), loopStep_counts]
      simp [List.length_cons]
      omega

/-- Claim C4: for every run of the feature-building loop, features emitted
plus rows skipped for missing geometry plus rows skipped on conversion
error equals the number of input rows. -/
theorem loop_accounting (cg : Value → Except String JValue) (ms : List MergedRow) :
    (buildLoop cg ms).features.length + (buildLoop cg ms).no_geom
        + (buildLoop cg ms).errors = ms.length := by
  have h := buildLoopFrom_accounting cg ms initLoopState
  simpa [buildLoop, initLoopState] using h

/-- The error-log invariant of the loop: the log holds the first
`min errors 3` messages, each truncated to at most 100 characters. -/
lemma buildLoopFrom_log_invariant (cg : Value → Except String JValue)
    (ms : List MergedRow) (st : LoopState)
    (hlen : st.errorLog.length = min st.errors 3)
    (hmsg : ∀ e ∈ st.errorLog, e.length ≤ 100) :
    (buildLoopFrom cg st ms).errorLog.length
        = min (buildLoopFrom cg st ms).errors 3
      ∧ ∀ e ∈ (buildLoopFrom cg st ms).errorLog, e.length ≤ 100 := by
  induction ms generalizing st with
  | nil => exact ⟨hlen, hmsg⟩
  | cons m ms ih =>
      show (buildLoopFrom cg (loopStep cg st m) ms).errorLog.length = _ ∧ _
      apply ih
      · unfold loopStep
        cases processRow cg m with
        | noGeom => simpa using hlen
        | feature f => simpa using hlen
        | rowError e =>
            by_cases h3 : st.errors + 1 ≤ 3
            · show (if st.errors + 1 ≤ 3 then st.errorLog ++ [pyTruncate 100 e]
                    else st.errorLog).length = min (st.errors + 1) 3
              rw [if_pos h3, List.length_append, List.length_singleton, hlen]
              omega
            · show (if st.errors + 1 ≤ 3 then st.errorLog ++ [pyTruncate 100 e]
                    else st.errorLog).length = min (st.errors + 1) 3
              rw [if_neg h3, hlen]
              omega
      · unfold loopStep
        cases processRow cg m with
        | noGeom => simpa using hmsg
        | feature f => simpa using hmsg
        | rowError e =>
            intro x hx
            replace hx : x ∈ (if st.errors + 1 ≤ 3
                then st.errorLog ++ [pyTruncate 100 e] else st.errorLog) := hx
            by_cases h3 : st.errors + 1 ≤ 3
            · rw [if_pos h3, List.mem_append, List.mem_singleton] at hx
              rcases hx with hx | hx
              · exact hmsg x hx
              · subst hx
                show (e.data.take 100).length ≤ 100
                rw [List.length_take]
                omega
            · rw [if_neg h3] at hx
              exact hmsg x hx

/-- Claim C5: per-row failures are isolated.  The loop over a split input
equals the loop continued over the second part from wherever the first part
left off (so no row failure prevents later rows from being processed); the
error log holds exactly the first `min errors 3` messages, and every logged
message is truncated to at most 100 characters. -/
theorem row_errors_isolated (cg : Value → Except String JValue)
    (st : LoopState) (ms1 ms2 ms : List MergedRow) :
    buildLoopFrom cg st (ms1 ++ ms2)
        = buildLoopFrom cg (buildLoopFrom cg st ms1) ms2
      ∧ (buildLoop cg ms).errorLog.length = min (buildLoop cg ms).errors 3
      ∧ ∀ e ∈ (buildLoop cg ms).errorLog, e.length ≤ 100 := by
  refine ⟨List.foldl_append _ _ _ _, ?_, ?_⟩
  · exact (buildLoopFrom_log_invariant cg ms initLoopState rfl (by intro e he; cases he)).1
  · exact (buildLoopFrom_log_invariant cg ms initLoopState rfl (by intro e he; cases he)).2

/-- Witness for C5 at a concrete failing row: the logged message is the
100-character truncation of the raised error. -/
theorem row_errors_isolated_witness :
    pyTruncate 100 longMsg ∈ (buildLoop cgFail [mErr]).errorLog ∧
    (pyTruncate 100 longMsg).length ≤ 100 := by
  have hmem : pyTruncate 100 longMsg ∈ (buildLoop cgFail [mErr]).errorLog := by
    rw [show (buildLoop cgFail [mErr]).errorLog = [pyTruncate 100 longMsg] from rfl]
    exact List.mem_singleton_self _
  exact ⟨hmem, (row_errors_isolated cgFail initLoopState [] [] [mErr]).2.2 _ hmem⟩

/-- Claim C1: when the left join matches zero rows (no merged row has a
non-null `pop_total`), the run aborts with the zero-match diagnostic
(sample keys from both sides) and no output file is written; when at least
one row matches, the run proceeds past the guard. -/
theorem zero_match_guard (cg : Value → Except String JValue)
    (gs : List GeomRow) (ps : List PopRow) :
    (matchedOf gs ps = 0 →
       runPipeline cg gs ps
           = .error (.zeroMatch (((gs.map normGeom).map GeomRowN.raw).take 5)
                                (((gs.map normGeom).map GeomRowN.short).take 5)
                                (((ps.map normalizePop).map popKey).take 5))
         ∧ writtenFile (runPipeline cg gs ps) = none)
    ∧ (matchedOf gs ps ≠ 0 → abortedZeroMatch (runPipeline cg gs ps) = false) := by
  constructor
  · intro h
    have h0 : countMatched (leftJoin (gs.map normGeom) (ps.map normalizePop)) = 0 := h
    have hrun : runPipeline cg gs ps
        = .error (.zeroMatch (((gs.map normGeom).map GeomRowN.raw).take 5)
                             (((gs.map normGeom).map GeomRowN.short).take 5)
                             (((ps.map normalizePop).map popKey).take 5)) := by
      unfold runPipeline
      rw [if_pos (by rw [h0]; rfl)]
    exact ⟨hrun, by rw [hrun]; rfl⟩
  · intro h
    have h0 : ¬ (countMatched (leftJoin (gs.map normGeom) (ps.map normalizePop)) == 0) = true := by
      simpa [matchedOf, mergedOf] using h
    unfold runPipeline
    rw [if_neg h0]
    show abortedZeroMatch
        (match jsonDumps false (featureCollection
            (buildLoopFrom cg initLoopState
              (leftJoin (gs.map normGeom) (ps.map normalizePop))).features) with
          | .error e => Except.error (PipeError.nanError e)
          | .ok s => Except.ok s) = false
    cases jsonDumps false (featureCollection
        (buildLoopFrom cg initLoopState
          (leftJoin (gs.map normGeom) (ps.map normalizePop))).features) with
    | error e => rfl
    | ok s => rfl

/-- Witness for C1: with disjoint key sets the run aborts without output;
with one shared key it proceeds past the guard. -/
theorem zero_match_guard_witness :
    (matchedOf [gA] [pB] = 0
       ∧ writtenFile (runPipeline cgPoint [gA] [pB]) = none)
    ∧ (matchedOf [gA] [pA] ≠ 0
       ∧ abortedZeroMatch (runPipeline cgPoint [gA] [pA]) = false) := by
  refine ⟨⟨by decide, ?_⟩, ⟨by decide, ?_⟩⟩
  · exact ((zero_match_guard cgPoint [gA] [pB]).1 (by decide)).2
  · exact (zero_match_guard cgPoint [gA] [pA]).2 (by decide)

/-- With pairwise-distinct keys, at most one row passes the key filter. -/
lemma filter_key_length_le_one (ps : List PopRow) (k : String)
    (h : (ps.map popKey).Nodup) :
    (ps.filter fun pr => popKey pr == k).length ≤ 1 := by
  induction ps with
  | nil => simp
  | cons p ps ih =>
      rw [List.map_cons, List.nodup_cons] at h
      by_cases hk : popKey p == k
      · have hempty : (ps.filter fun pr => popKey pr == k) = [] := by
          rw [List.filter_eq_nil_iff]
          intro a ha hak
          apply h.1
          have : popKey a = k := by simpa using hak
          have hpk : popKey p = k := by simpa using hk
          rw [hpk, ← this]
          exact List.mem_map_of_mem popKey ha
        rw [List.filter_cons, if_pos hk, hempty]
        simp
      · rw [List.filter_cons, if_neg hk]
        exact ih h.2

/-- Claim C3, as stated, is false: with two population rows sharing one
key, a single matching geometry row yields two joined rows, so the join
does not preserve geometry-table cardinality for every pair of tables. -/
theorem left_join_cardinality_cx :
    (mergedOf [gA]
        [⟨.vstr "2045520", .vstr "A", .vnan, .vnan, .vnan, .vnan, .vnan, .vint 1⟩,
         ⟨.vstr "2045520", .vstr "B", .vnan, .vnan, .vnan, .vnan, .vnan, .vint 2⟩]).length = 2
    ∧ ([gA] : List GeomRow).length = 1 := by
  exact ⟨by decide, by decide⟩

/-- Claim C3 (amended): when the normalized population keys are pairwise
distinct, the left join preserves geometry-table cardinality (one joined
row per geometry row), and a geometry row with no matching population key
is kept with all population fields null. -/
theorem left_join_cardinality (gs : List GeomRow) (ps : List PopRow)
    (h : ((ps.map normalizePop).map popKey).Nodup) :
    (mergedOf gs ps).length = gs.length
      ∧ ∀ g ∈ gs.map normGeom,
          (∀ pr ∈ ps.map normalizePop, popKey pr ≠ g.short) →
          (⟨g, none⟩ : MergedRow) ∈ mergedOf gs ps := by
  constructor
  · unfold mergedOf leftJoin
    induction gs with
    | nil => rfl
    | cons g gs ih =>
        rw [List.map_cons, List.flatMap_cons, List.length_append, ih,
          List.length_cons]
        have hle := filter_key_length_le_one (ps.map normalizePop)
          (normGeom g).short h
        by_cases he : ((ps.map normalizePop).filter
            fun pr => popKey pr == (normGeom g).short).isEmpty
        · rw [if_pos he]
          simp [Nat.add_comm]
        · rw [if_neg he]
          rw [List.length_map]
          have hpos : 0 < ((ps.map normalizePop).filter
              fun pr => popKey pr == (normGeom g).short).length := by
            rcases Nat.eq_zero_or_pos ((ps.map normalizePop).filter
                fun pr => popKey pr == (normGeom g).short).length with h0 | h0
            · exact absurd (List.isEmpty_iff.mpr (List.length_eq_zero.mp h0)) he
            · exact h0
          omega
  · intro g hg hnone
    unfold mergedOf leftJoin
    rw [List.mem_flatMap]
    refine ⟨g, hg, ?_⟩
    have hempty : ((ps.map normalizePop).filter
        fun pr => popKey pr == g.short) = [] := by
      rw [List.filter_eq_nil_iff]
      intro a ha hak
      exact hnone a ha (by simpa using hak)
    rw [hempty]
    exact List.mem_singleton_self _

/-- Witness for the amended C3: two distinct-keyed population rows, one
matching geometry row. -/
theorem left_join_cardinality_witness :
    (([pA, pB].map normalizePop).map popKey).Nodup
      ∧ (mergedOf [gA] [pA, pB]).length = ([gA] : List GeomRow).length := by
  exact ⟨by decide, (left_join_cardinality [gA] [pA, pB] (by decide)).1⟩

/-- Claim C9: the pipeline is deterministic; two runs on equal inputs
produce equal results, in particular byte-identical output documents. -/
theorem pipeline_deterministic (cg : Value → Except String JValue)
    (gs gs' : List GeomRow) (ps ps' : List PopRow)
    (h1 : gs = gs') (h2 : ps = ps') :
    runPipeline cg gs ps = runPipeline cg gs' ps'
      ∧ writtenFile (runPipeline cg gs ps) = writtenFile (runPipeline cg gs' ps') := by
  subst h1
  subst h2
  exact ⟨rfl, rfl⟩

/-- Witness for C9 on concrete equal inputs. -/
theorem pipeline_deterministic_witness :
    ([gA] : List GeomRow) = [gA]
      ∧ runPipeline cgPoint [gA] [pA] = runPipeline cgPoint [gA] [pA] := by
  exact ⟨rfl, (pipeline_deterministic cgPoint [gA] [gA] [pA] [pA] rfl rfl).1⟩

/-- Claim C6 (amended): every successfully transformed row emits a Feature
whose properties map has exactly the fixed allow-listed keys in source
order; each numeric resident-count field absent or null in the joined row
appears as 0 (in particular `pop_total`), and each absent string field
appears as null, except that an absent `zsj_nazov` (resp. `okres_nazov`)
takes the geometry-side fallback column `nazov_zsj` (resp. `nazov_okre`)
raw value when that column is present. -/
theorem feature_properties (cg : Value → Except String JValue)
    (m : MergedRow) (f : JValue) (h : processRow cg m = .feature f) :
    ∃ gj ps, cg m.g.geom = .ok gj ∧ buildProps m = .ok ps ∧ f = mkFeature gj ps
      ∧ ps.map Prod.fst = allowedKeys
      ∧ ((m.pop PopRow.pop_trvaly_pobyt).isNa = true →
           plook ps "pop_trvaly_pobyt" = some (.jint 0))
      ∧ ((m.pop PopRow.pop_inde_sr).isNa = true →
           plook ps "pop_inde_sr" = some (.jint 0))
      ∧ ((m.pop PopRow.pop_zahranicie).isNa = true →
           plook ps "pop_zahranicie" = some (.jint 0))
      ∧ ((m.pop PopRow.pop_total).isNa = true →
           plook ps "pop_total" = some (.jint 0))
      ∧ ((m.pop PopRow.zsj_kod).isNa = true →
           plook ps "zsj_kod" = some .jnull)
      ∧ ((m.pop PopRow.obec_nazov).isNa = true →
           plook ps "obec_nazov" = some .jnull)
      ∧ ((m.pop PopRow.zsj_nazov).isNa = true →
           plook ps "zsj_nazov" = some (fallbackName m.g.nazov_zsj))
      ∧ ((m.pop PopRow.okres_nazov).isNa = true →
           plook ps "okres_nazov" = some (fallbackName m.g.nazov_okre)) := by
  unfold processRow at h
  replace h : (if (m.g.geom.isNa || m.g.geom == Value.vstr "") = true
      then RowOutcome.noGeom
      else match cg m.g.geom with
        | .error e => RowOutcome.rowError e
        | .ok gj =>
            match buildProps m with
            | .error e => RowOutcome.rowError e
            | .ok ps => RowOutcome.feature (mkFeature gj ps))
      = RowOutcome.feature f := h
  by_cases hgw : (m.g.geom.isNa || m.g.geom == Value.vstr "") = true
  · rw [if_pos hgw] at h
    cases h
  · rw [if_neg hgw] at h
    cases hcg : cg m.g.geom with
    | error e =>
        rw [hcg] at h
        replace h : RowOutcome.rowError e = RowOutcome.feature f := h
        cases h
    | ok gj =>
        rw [hcg] at h
        replace h : (match buildProps m with
          | .error e => RowOutcome.rowError e
          | .ok ps => RowOutcome.feature (mkFeature gj ps))
            = RowOutcome.feature f := h
        cases hbp : buildProps m with
        | error e =>
            rw [hbp] at h
            replace h : RowOutcome.rowError e = RowOutcome.feature f := h
            cases h
        | ok ps =>
            rw [hbp] at h
            replace h : RowOutcome.feature (mkFeature gj ps)
                = RowOutcome.feature f := h
            injection h with h
            subst h
            refine ⟨gj, ps, rfl, rfl, rfl, ?_⟩
            unfold buildProps at hbp
            cases hn1 : numProp (m.pop PopRow.pop_trvaly_pobyt) with
            | error e1 =>
                rw [hn1] at hbp
                replace hbp : (Except.error e1 : Except String (List (String × JValue)))
                    = .ok ps := hbp
                cases hbp
            | ok p1 =>
            rw [hn1] at hbp
            cases hn2 : numProp (m.pop PopRow.pop_inde_sr) with
            | error e2 =>
                rw [hn2] at hbp
                replace hbp : (Except.error e2 : Except String (List (String × JValue)))
                    = .ok ps := hbp
                cases hbp
            | ok p2 =>
            rw [hn2] at hbp
            cases hn3 : numProp (m.pop PopRow.pop_zahranicie) with
            | error e3 =>
                rw [hn3] at hbp
                replace hbp : (Except.error e3 : Except String (List (String × JValue)))
                    = .ok ps := hbp
                cases hbp
            | ok p3 =>
            rw [hn3] at hbp
            cases hn4 : numProp (m.pop PopRow.pop_total) with
            | error e4 =>
                rw [hn4] at hbp
                replace hbp : (Except.error e4 : Except String (List (String × JValue)))
                    = .ok ps := hbp
                cases hbp
            | ok p4 =>
            rw [hn4] at hbp
            replace hbp : (Except.ok (buildPropsCore m p1 p2 p3 p4)
                : Except String (List (String × JValue))) = .ok ps := hbp
            injection hbp with hbp
            subst hbp
            refine ⟨rfl, ?_, ?_, ?_, ?_, ?_, ?_, ?_, ?_⟩
            · intro hna
              have : numProp (m.pop PopRow.pop_trvaly_pobyt) = .ok (.jint 0) := by
                simp [numProp, hna]
              rw [this] at hn1
              injection hn1 with hv
              show some p1 = some (JValue.jint 0)
              rw [← hv]
            · intro hna
              have : numProp (m.pop PopRow.pop_inde_sr) = .ok (.jint 0) := by
                simp [numProp, hna]
              rw [this] at hn2
              injection hn2 with hv
              show some p2 = some (JValue.jint 0)
              rw [← hv]
            · intro hna
              have : numProp (m.pop PopRow.pop_zahranicie) = .ok (.jint 0) := by
                simp [numProp, hna]
              rw [this] at hn3
              injection hn3 with hv
              show some p3 = some (JValue.jint 0)
              rw [← hv]
            · intro hna
              have : numProp (m.pop PopRow.pop_total) = .ok (.jint 0) := by
                simp [numProp, hna]
              rw [this] at hn4
              injection hn4 with hv
              show some p4 = some (JValue.jint 0)
              rw [← hv]
            · intro hna
              show some (strProp (m.pop PopRow.zsj_kod)) = some JValue.jnull
              rw [show strProp (m.pop PopRow.zsj_kod) = .jnull by
                simp [strProp, hna]]
            · intro hna
              show some (strProp (m.pop PopRow.obec_nazov)) = some JValue.jnull
              rw [show strProp (m.pop PopRow.obec_nazov) = .jnull by
                simp [strProp, hna]]
            · intro hna
              show some (match strProp (m.pop PopRow.zsj_nazov), m.g.nazov_zsj with
                  | .jnull, some v => JValue.ofValue v
                  | x, _ => x) = some (fallbackName m.g.nazov_zsj)
              rw [show strProp (m.pop PopRow.zsj_nazov) = .jnull by
                simp [strProp, hna]]
              cases m.g.nazov_zsj with
              | none => rfl
              | some v => rfl
            · intro hna
              show some (match strProp (m.pop PopRow.okres_nazov), m.g.nazov_okre with
                  | .jnull, some v => JValue.ofValue v
                  | x, _ => x) = some (fallbackName m.g.nazov_okre)
              rw [show strProp (m.pop PopRow.okres_nazov) = .jnull by
                simp [strProp, hna]]
              cases m.g.nazov_okre with
              | none => rfl
              | some v => rfl

/-- Claim C6, as stated, is false on the string-default part: `mFall` is
successfully transformed, its joined row's `zsj_nazov` is absent (NaN on
the population side), yet the emitted property is the geometry-side
fallback value "Alt", not null. -/
theorem feature_properties_cx :
    (mFall.pop PopRow.zsj_nazov).isNa = true
      ∧ processRow cgPoint mFall = .feature (mkFeature pointJson propsFall)
      ∧ plook propsFall "zsj_nazov" = some (.jstr "Alt")
      ∧ plook propsFall "zsj_nazov" ≠ some .jnull := by
  refine ⟨rfl, rfl, rfl, ?_⟩
  intro hc
  rw [show plook propsFall "zsj_nazov" = some (.jstr "Alt") from rfl] at hc
  injection hc with hc
  cases hc

/-- Witness for the amended C6 at the unmatched row `mUn`: all keys
present, `pop_total` equal to 0. -/
theorem feature_properties_witness :
    processRow cgPoint mUn = .feature (mkFeature pointJson propsUn)
      ∧ propsUn.map Prod.fst = allowedKeys
      ∧ plook propsUn "pop_total" = some (.jint 0) := by
  obtain ⟨gj, ps, hcg, hbp, hf, hkeys, h1, h2, h3, h4, h5, h6, h7, h8⟩ :=
    feature_properties cgPoint mUn (mkFeature pointJson propsUn) rfl
  have hps : ps = propsUn := by
    have hok : (Except.ok ps : Except String (List (String × JValue)))
        = .ok propsUn := by
      rw [← hbp]
      rfl
    injection hok
  subst hps
  exact ⟨rfl, hkeys, h4 rfl⟩

/-- Claim C7: the writer never emits a document containing NaN.  A
successful run's output is the rendering of a NaN-free document, and a
document containing NaN makes serialization fail before any output file
content is produced. -/
theorem no_nan_serialization (cg : Value → Except String JValue)
    (gs : List GeomRow) (ps : List PopRow) :
    (∀ s, runPipeline cg gs ps = .ok s →
       (docOf cg gs ps).hasNan = false ∧ s = (docOf cg gs ps).render)
    ∧ ((docOf cg gs ps).hasNan = true →
       writtenFile (runPipeline cg gs ps) = none) := by
  by_cases h0 : (countMatched (leftJoin (gs.map normGeom)
      (ps.map normalizePop)) == 0) = true
  · have hrun : runPipeline cg gs ps
        = .error (.zeroMatch (((gs.map normGeom).map GeomRowN.raw).take 5)
                             (((gs.map normGeom).map GeomRowN.short).take 5)
                             (((ps.map normalizePop).map popKey).take 5)) := by
      unfold runPipeline
      rw [if_pos h0]
    constructor
    · intro s hs
      rw [hrun] at hs
      cases hs
    · intro _
      rw [hrun]
      rfl
  · have hrun : runPipeline cg gs ps
        = match jsonDumps false (docOf cg gs ps) with
          | .error e => .error (.nanError e)
          | .ok s => .ok s := by
      unfold runPipeline
      rw [if_neg h0]
      rfl
    by_cases hn : (docOf cg gs ps).hasNan = true
    · have hdump : jsonDumps false (docOf cg gs ps)
          = .error "Out of range float values are not JSON compliant" := by
        unfold jsonDumps
        rw [if_pos (by simp [hn])]
      constructor
      · intro s hs
        rw [hrun, hdump] at hs
        cases hs
      · intro _
        rw [hrun, hdump]
        rfl
    · have hn' : (docOf cg gs ps).hasNan = false := by
        cases hcase : (docOf cg gs ps).hasNan
        · rfl
        · exact absurd hcase hn
      have hdump : jsonDumps false (docOf cg gs ps)
          = .ok ((docOf cg gs ps).render) := by
        unfold jsonDumps
        rw [if_neg (by simp [hn'])]
      constructor
      · intro s hs
        rw [hrun, hdump] at hs
        injection hs with hs
        exact ⟨hn', hs.symm⟩
      · intro hcontra
        exact absurd hcontra hn
/-- Witness for C7: a NaN-free run writes the rendered document; a run
whose document contains NaN (via the raw fallback of a NaN name cell)
writes nothing. -/
theorem no_nan_serialization_witness :
    runPipeline cgPoint [gA] [pA] = .ok ((docOf cgPoint [gA] [pA]).render)
      ∧ (docOf cgPoint [gA] [pA]).hasNan = false
      ∧ (docOf cgPoint [gNan] [pNoName]).hasNan = true
      ∧ writtenFile (runPipeline cgPoint [gNan] [pNoName]) = none := by
  have hrun : runPipeline cgPoint [gA] [pA]
      = .ok ((docOf cgPoint [gA] [pA]).render) := by rfl
  refine ⟨hrun, ((no_nan_serialization cgPoint [gA] [pA]).1 _ hrun).1, by rfl, ?_⟩
  exact (no_nan_serialization cgPoint [gNan] [pNoName]).2 (by rfl)

/-- Claim C8, as stated, is false: the key-normalization step at line 96
rewrites the population key column in place after load, so a record whose
loaded key carries whitespace reaches the join modified. -/
theorem pop_readonly_cx : popTableAtJoin [pWs] ≠ [pWs] := by decide

/-- Claim C8 (amended): after load, population records are modified exactly
once, by the key normalization of line 96, which replaces `zsj_kod` with
its string-cast, whitespace-stripped form and leaves every other field
unchanged; a record whose key is already a stripped string is unchanged,
and no later step modifies any record. -/
theorem pop_readonly_after_normalize (ps : List PopRow) (pr : PopRow)
    (h : pr ∈ ps) :
    normalizePop pr ∈ popTableAtJoin ps
      ∧ (normalizePop pr).zsj_nazov = pr.zsj_nazov
      ∧ (normalizePop pr).okres_nazov = pr.okres_nazov
      ∧ (normalizePop pr).obec_nazov = pr.obec_nazov
      ∧ (normalizePop pr).pop_trvaly_pobyt = pr.pop_trvaly_pobyt
      ∧ (normalizePop pr).pop_inde_sr = pr.pop_inde_sr
      ∧ (normalizePop pr).pop_zahranicie = pr.pop_zahranicie
      ∧ (normalizePop pr).pop_total = pr.pop_total
      ∧ (normalizePop pr).zsj_kod = .vstr (pyStrip (pyStr pr.zsj_kod))
      ∧ (∀ s, pr.zsj_kod = .vstr s → pyStrip s = s → normalizePop pr = pr) := by
  refine ⟨List.mem_map_of_mem _ h, rfl, rfl, rfl, rfl, rfl, rfl, rfl, rfl, ?_⟩
  intro s hs hstrip
  have hps : pyStrip (pyStr (Value.vstr s)) = s := by
    show pyStrip s = s
    exact hstrip
  unfold normalizePop
  rw [hs, hps, ← hs]

/-- Witness for the amended C8: an already-normalized record passes the
normalization unchanged and reaches the join. -/
theorem pop_readonly_witness :
    pA ∈ [pA]
      ∧ normalizePop pA ∈ popTableAtJoin [pA]
      ∧ normalizePop pA = pA := by
  have h := pop_readonly_after_normalize [pA] pA (List.mem_singleton_self pA)
  exact ⟨List.mem_singleton_self pA, h.1,
    h.2.2.2.2.2.2.2.2.2 "2045520" rfl (by decide)⟩

/-- Witness for the amended C10 at the concrete identifier "AB12". -/
theorem short_key_total_witness :
    (pyStrip (pyStr (Value.vstr "AB12"))).length < 7 ∧
    (normGeom ⟨.vstr "AB12", .vnan, none, none⟩).short
      = pyStrip (pyStr (Value.vstr "AB12")) := by
  exact ⟨by decide, (short_key_total ⟨.vstr "AB12", .vnan, none, none⟩).1 (by decide)⟩

end MergePop
